import Mathlib

/-!
Verification development for the Aurora Q&A backend (`aurora_v2.py`).

The program is shallowly embedded: JSON values returned by the remote
services and stored in the in-process corpus are modelled by `JVal`;
outcomes of external library calls (HTTP requests, `json.loads` on file
bytes) are inputs of the model; the retry loop, the pagination loop and
the request handlers are translated function by function from the source.
-/

set_option maxHeartbeats 1000000

namespace Aurora

/-- A JSON value, as produced by `resp.json()` / `json.loads`. -/
inductive JVal where
  | jnull
  | jbool (b : Bool)
  | jnum (n : Int)
  | jstr (s : String)
  | jarr (xs : List JVal)
  | jobj (fields : List (String × JVal))
deriving Repr

/-- A Python exception class, as far as the embedded code distinguishes them. -/
inductive PyErr where
  | attributeError
  | indexError
  | keyError
  | typeError
deriving Repr, DecidableEq

/-- Python truthiness (`bool(v)`) of a JSON-derived value: `None`, `False`,
`0`, `""`, `[]` and `{}` are falsy, everything else truthy. -/
def pyTruthy : JVal → Bool
  | .jnull => false
  | .jbool b => b
  | .jnum n => n != 0
  | .jstr s => s != ""
  | .jarr xs => !xs.isEmpty
  | .jobj fs => !fs.isEmpty

/-- Key lookup in a JSON object's field list (first match wins, as in
a Python dict there is at most one). -/
def jLookup (fields : List (String × JVal)) (key : String) : Option JVal :=
  match fields with
  | [] => none
  | (k, v) :: rest => if k = key then some v else jLookup rest key

/-- Python `v.get(key, default)`: defaults a missing key on a dict, raises
`AttributeError` on any non-dict value (only dicts have `.get`). -/
def pyGet (v : JVal) (key : String) (default : JVal) : Except PyErr JVal :=
  match v with
  | .jobj fields =>
    match jLookup fields key with
    | some x => .ok x
    | none => .ok default
  | _ => .error .attributeError

/-- Python `key in v` for a dict; the embedded code only evaluates it on
values already known to be dicts. -/
def pyHasKey (v : JVal) (key : String) : Bool :=
  match v with
  | .jobj fields => (jLookup fields key).isSome
  | _ => false

/-- Python `v[0]`: first element of a list (IndexError when empty), first
character of a string (IndexError when empty), KeyError on a dict whose
keys are strings, TypeError on the remaining scalars. -/
def pyIndex0 (v : JVal) : Except PyErr JVal :=
  match v with
  | .jarr (x :: _) => .ok x
  | .jarr [] => .error .indexError
  | .jstr s =>
    match s.toList with
    | c :: _ => .ok (.jstr (String.mk [c]))
    | [] => .error .indexError
  | .jobj _ => .error .keyError
  | _ => .error .typeError

/-- Python `v[key]` on a dict (`KeyError` when absent, `TypeError` when the
value is not subscriptable by a string). -/
def pySubscript (v : JVal) (key : String) : Except PyErr JVal :=
  match v with
  | .jobj fields =>
    match jLookup fields key with
    | some x => .ok x
    | none => .error .keyError
  | .jarr _ => .error .typeError
  | .jstr _ => .error .typeError
  | _ => .error .typeError

/-- Python `n >= v` for a count `n` against a JSON-derived value: numeric
comparison for numbers, booleans count as 0/1, otherwise TypeError. -/
def pyGEInt (n : Nat) (v : JVal) : Except PyErr Bool :=
  match v with
  | .jnum m => .ok (decide ((n : Int) ≥ m))
  | .jbool b => .ok (decide ((n : Int) ≥ (if b then 1 else 0)))
  | _ => .error .typeError

/-- Python `len(v)`: length of a list, string or dict, TypeError otherwise. -/
def pyLen (v : JVal) : Except PyErr Nat :=
  match v with
  | .jarr xs => .ok xs.length
  | .jstr s => .ok s.length
  | .jobj fs => .ok fs.length
  | _ => .error .typeError

/-- The single-quote character used by Python `repr` of strings. -/
def squote : String := String.mk [Char.ofNat 39]

/-- Escaping used by Python `repr` on strings (backslash, quote and the
common control characters; exotic characters are left as-is). -/
def pyEscape (s : String) : String :=
  String.join (s.toList.map fun c =>
    if c = Char.ofNat 92 then String.mk [Char.ofNat 92, Char.ofNat 92]
    else if c = Char.ofNat 39 then String.mk [Char.ofNat 92, Char.ofNat 39]
    else if c = Char.ofNat 10 then String.mk [Char.ofNat 92, Char.ofNat 110]
    else if c = Char.ofNat 13 then String.mk [Char.ofNat 92, Char.ofNat 114]
    else if c = Char.ofNat 9 then String.mk [Char.ofNat 92, Char.ofNat 116]
    else String.mk [c])

mutual
/-- Python `repr()` of a JSON-derived value. -/
def pyRepr : JVal → String
  | .jnull => "None"
  | .jbool true => "True"
  | .jbool false => "False"
  | .jnum n => toString n
  | .jstr s => squote ++ pyEscape s ++ squote
  | .jarr xs => "[" ++ String.intercalate ", " (pyReprList xs) ++ "]"
  | .jobj fs => "\x7b" ++ String.intercalate ", " (pyReprFields fs) ++ "\x7d"

/-- `repr` of the elements of a list. -/
def pyReprList : List JVal → List String
  | [] => []
  | x :: xs => pyRepr x :: pyReprList xs

/-- `repr` of the key-value pairs of a dict. -/
def pyReprFields : List (String × JVal) → List String
  | [] => []
  | (k, v) :: fs => (squote ++ pyEscape k ++ squote ++ ": " ++ pyRepr v) :: pyReprFields fs
end

/-- Python `str()` of a JSON-derived value, as used by f-string formatting:
identity on strings, `repr` otherwise. -/
def pyStr (v : JVal) : String :=
  match v with
  | .jstr s => s
  | _ => pyRepr v

/-- JSON string escaping used by `json.dumps` (backslash, double quote and
the common control characters). -/
def jsonEscape (s : String) : String :=
  String.join (s.toList.map fun c =>
    if c = Char.ofNat 92 then String.mk [Char.ofNat 92, Char.ofNat 92]
    else if c = Char.ofNat 34 then String.mk [Char.ofNat 92, Char.ofNat 34]
    else if c = Char.ofNat 10 then String.mk [Char.ofNat 92, Char.ofNat 110]
    else if c = Char.ofNat 13 then String.mk [Char.ofNat 92, Char.ofNat 114]
    else if c = Char.ofNat 9 then String.mk [Char.ofNat 92, Char.ofNat 116]
    else String.mk [c])

mutual
/-- `json.dumps` of a JSON value, modelled up to insignificant whitespace
(the source passes `indent=2`, which only changes whitespace). -/
def jsonDumps : JVal → String
  | .jnull => "null"
  | .jbool true => "true"
  | .jbool false => "false"
  | .jnum n => toString n
  | .jstr s => "\"" ++ jsonEscape s ++ "\""
  | .jarr xs => "[" ++ String.intercalate ", " (jsonDumpsList xs) ++ "]"
  | .jobj fs => "\x7b" ++ String.intercalate ", " (jsonDumpsFields fs) ++ "\x7d"

/-- `json.dumps` of the elements of a list. -/
def jsonDumpsList : List JVal → List String
  | [] => []
  | x :: xs => jsonDumps x :: jsonDumpsList xs

/-- `json.dumps` of the key-value pairs of a dict. -/
def jsonDumpsFields : List (String × JVal) → List String
  | [] => []
  | (k, v) :: fs => ("\"" ++ jsonEscape k ++ "\": " ++ jsonDumps v) :: jsonDumpsFields fs
end

/-! ## Cache file (`save_messages_cache`, `load_messages_from_cache`) -/

/-- State of the single cache file `messages_cache_v2.json`.
`missing` means `DATA_FILE.exists()` is false; `unreadable` means the file
exists but `read_text` raises; `holds pr` means the file exists, is
readable, and `pr` is the outcome of `json.loads` on its bytes
(`json.loads` is an external library call, so its outcome on the stored
bytes is an input of the model). -/
inductive CacheFile where
  | missing
  | unreadable
  | holds (parsed : Except Unit JVal)
deriving Repr

/-- `save_messages_cache`: writes `json.dumps(messages, indent=2)` to the
cache file — but only when `messages` is truthy; an empty corpus leaves
the file untouched. Returns the new file state; a freshly written file
parses back to the corpus that was written. -/
def save_messages_cache (messages : JVal) (file : CacheFile) : CacheFile :=
  if pyTruthy messages then .holds (.ok messages) else file

/-- The text `save_messages_cache` writes when it writes. -/
def savedText (messages : JVal) : String := jsonDumps messages

/-- `load_messages_from_cache`: if the file exists, read and parse it and
set `messages` to the parsed value, returning `True`; a read or parse
failure is caught and falls through to `return False` with `messages`
unchanged. Result: (returned boolean, `messages` afterwards). -/
def load_messages_from_cache (file : CacheFile) (messages : JVal) : Bool × JVal :=
  match file with
  | .missing => (false, messages)
  | .unreadable => (false, messages)
  | .holds (.error _) => (false, messages)
  | .holds (.ok v) => (true, v)

/-! ## `build_context` -/

/-- One line of the context: `f"\x7bm['member']\x7d: \x7bm['message']\x7d"`. -/
def contextLine (m : JVal) : Except PyErr String := do
  let member ← pySubscript m "member"
  let msg ← pySubscript m "message"
  .ok (pyStr member ++ ": " ++ pyStr msg)

/-- The list-comprehension body of `build_context`, over the corpus
elements; the first raising element propagates its exception. -/
def contextLines : List JVal → Except PyErr (List String)
  | [] => .ok []
  | m :: ms => do
    let l ← contextLine m
    let ls ← contextLines ms
    .ok (l :: ls)

/-- `build_context`: renders every cached message as `member: message` and
joins with newlines. Iterating a non-list corpus raises TypeError. -/
def build_context (messages : JVal) : Except PyErr String :=
  match messages with
  | .jarr ms => do
    let ls ← contextLines ms
    .ok (String.intercalate "\n" ls)
  | _ => .error .typeError

/-- Encode a list of (member, message) string pairs as the corpus value the
fetcher produces for them. -/
def corpusOf (l : List (String × String)) : JVal :=
  .jarr (l.map fun p => .jobj [("member", .jstr p.1), ("message", .jstr p.2)])

/-! ## `ask_gemini` -/

/-- The marker returned when the response structure carries no text. -/
def noTextMarker : String := "Error: LLM returned no text."

/-- The extraction
`result.get("candidates",[...])[0].get("content",...).get("parts",[...])[0].get("text",...)`
performed on a successfully parsed 2xx response body. -/
def extractText (result : JVal) : Except PyErr JVal := do
  let cands ← pyGet result "candidates" (.jarr [.jobj []])
  let c0 ← pyIndex0 cands
  let content ← pyGet c0 "content" (.jobj [])
  let parts ← pyGet content "parts" (.jarr [.jobj []])
  let p0 ← pyIndex0 parts
  pyGet p0 "text" (.jstr noTextMarker)

/-- Outcome of one `client.post` + `raise_for_status` + `.json()` on the
LLM endpoint, an input of the model for each attempt index:
`success body` is a 2xx response whose body parsed to `body`;
`statusError` is a response on which `raise_for_status` raises
`httpx.HTTPStatusError`; `otherError` is any other failure of the attempt
(transport error, timeout, or a 2xx body that `.json()` cannot parse),
which the source catches with its generic `except Exception` arm. -/
inductive AttemptOutcome where
  | success (body : JVal)
  | statusError
  | otherError
deriving Repr

/-- How the `for attempt in range(3)` loop of `ask_gemini` exits:
a `return text` from inside an attempt, a raised `HTTPException` with the
given status code, or falling through all three attempts to the line after
the loop (shown unreachable below). -/
inductive LoopExit where
  | returned (text : JVal)
  | raised (status : Nat)
  | fellThrough
deriving Repr

/-- Result of the retry loop: how it exited, the seconds slept between
attempts (`2 ** attempt`), and the number of POST attempts issued. -/
structure LoopOut where
  exit : LoopExit
  sleeps : List Nat
  calls : Nat
deriving Repr

/-- Whether attempt `a` fails: any non-2xx or transport outcome, and also a
2xx body on which the extraction raises (caught by the same `except`). -/
def attemptFails (env : Nat → AttemptOutcome) (a : Nat) : Bool :=
  match env a with
  | .success body =>
    match extractText body with
    | .ok _ => false
    | .error _ => true
  | .statusError => true
  | .otherError => true

/-- The body of the `for attempt in range(3)` loop of `ask_gemini`, with
`rem` iterations of the range left and `a` the current attempt index (the
entry point below passes `rem = 3, a = 0`, so `rem + a = 3` throughout):
on success return the extracted text; on `httpx.HTTPStatusError` raise 502
at attempt 2, else sleep `2 ** attempt` and retry; on any other exception
(transport failure, parse failure, extraction failure) raise 500 at
attempt 2, else sleep and retry; an exhausted range falls through. -/
def askLoopAux (env : Nat → AttemptOutcome) :
    Nat → Nat → List Nat → Nat → LoopOut
  | 0, _a, sleeps, calls => ⟨.fellThrough, sleeps, calls⟩
  | rem + 1, a, sleeps, calls =>
    match env a with
    | .success body =>
      match extractText body with
      | .ok text => ⟨.returned text, sleeps, calls + 1⟩
      | .error _ =>
        if a == 2 then ⟨.raised 500, sleeps, calls + 1⟩
        else askLoopAux env rem (a + 1) (sleeps ++ [2 ^ a]) (calls + 1)
    | .statusError =>
      if a == 2 then ⟨.raised 502, sleeps, calls + 1⟩
      else askLoopAux env rem (a + 1) (sleeps ++ [2 ^ a]) (calls + 1)
    | .otherError =>
      if a == 2 then ⟨.raised 500, sleeps, calls + 1⟩
      else askLoopAux env rem (a + 1) (sleeps ++ [2 ^ a]) (calls + 1)

/-- The `for attempt in range(3)` retry loop of `ask_gemini`. -/
def askLoop (env : Nat → AttemptOutcome) : LoopOut :=
  askLoopAux env 3 0 [] 0

/-- How a call of `ask_gemini` ends: a returned value, a raised
`HTTPException(status)`, or a Python exception escaping from
`build_context` (which runs outside the `try`). -/
inductive AskRes where
  | ret (v : JVal)
  | raised (status : Nat)
  | pyerr (e : PyErr)
deriving Repr

/-- Full observable outcome of `ask_gemini`. -/
structure AskOut where
  res : AskRes
  sleeps : List Nat
  calls : Nat
deriving Repr

/-- Diagnostic returned when the API key is falsy. -/
def keyMissingMsg : String :=
  "Gemini API key is missing. Please verify the GEMINI_API_KEY variable in the code."

/-- Diagnostic returned when the corpus is falsy. -/
def noDataMsg : String :=
  "Message data is not available. Please check the data fetching process."

/-- The string returned by the line after the retry loop. -/
def fallbackMsg : String := "Failed to get response from AI."

/-- `ask_gemini(question)`: check the API key, then the corpus; build the
context (outside the `try`: its exceptions escape); then run the retry
loop, mapping a fall-through to the post-loop fallback string. -/
def ask_gemini (apiKey : String) (messages : JVal) (env : Nat → AttemptOutcome) :
    AskOut :=
  if !pyTruthy (.jstr apiKey) then ⟨.ret (.jstr keyMissingMsg), [], 0⟩
  else if !pyTruthy messages then ⟨.ret (.jstr noDataMsg), [], 0⟩
  else
    match build_context messages with
    | .error e => ⟨.pyerr e, [], 0⟩
    | .ok _context =>
      let out := askLoop env
      match out.exit with
      | .returned text => ⟨.ret text, out.sleeps, out.calls⟩
      | .raised status => ⟨.raised status, out.sleeps, out.calls⟩
      | .fellThrough => ⟨.ret (.jstr fallbackMsg), out.sleeps, out.calls⟩

/-! ## Startup fetch loop (`lifespan`) -/

/-- Outcome of `client.get(url, params={page, limit})` followed by
`.json()` for one page, an input of the model: `resp status body` is a
received response with that status whose `.json()` yields `body`
(`.error` when the body is not JSON), `netError` is a raised transport
exception. -/
inductive FetchResp where
  | resp (status : Nat) (body : Except Unit JVal)
  | netError
deriving Repr

/-- The fixed page size (`limit = 100`) sent with every page request. -/
def pageLimit : Nat := 100

/-- Loop state of the pagination loop in `lifespan`: the local variables
`page`, `total_fetched`, `api_total`, the accumulating global `messages`
list, and (ghost bookkeeping, not program state) the list of page indices
requested so far. -/
structure FetchState where
  page : Nat
  total_fetched : Nat
  api_total : Option JVal
  msgs : List JVal
  reqs : List Nat
deriving Repr

/-- The initial state of the pagination loop (`page = 0`, nothing fetched). -/
def fetchInit : FetchState := ⟨0, 0, none, [], []⟩

/-- Normalization of one remote item:
`{"member": it.get("user_name", "Unknown"), "message": it.get("message", "")}`;
raises (AttributeError) when the item is not a dict. -/
def normalizeItem (it : JVal) : Except PyErr JVal := do
  let member ← pyGet it "user_name" (.jstr "Unknown")
  let msg ← pyGet it "message" (.jstr "")
  .ok (.jobj [("member", member), ("message", msg)])

/-- The `for it in items` append loop: items already normalized before the
first failing one have been appended when the exception is raised, so the
result is the appended items plus the exception, if any. -/
def normalizeMany : List JVal → List JVal × Option PyErr
  | [] => ([], none)
  | it :: its =>
    match normalizeItem it with
    | .error e => ([], some e)
    | .ok m =>
      let (ms, err) := normalizeMany its
      (m :: ms, err)

/-- Lines 83-84: `if api_total is None and "total" in data: api_total = data["total"]`
(the total is remembered from the first response that carries one). -/
def rememberTotal (api_total : Option JVal) (data : JVal) : Option JVal :=
  if api_total.isNone && pyHasKey data "total" then
    jLookup (match data with | .jobj fs => fs | _ => []) "total"
  else api_total

/-- What one iteration of the `while True` loop does: `stop` is a `break`
(the corpus so far is kept), `next` continues with the next page after the
0.1s sleep, `raise` is an exception escaping to the `except` handler of
`lifespan` (the state records `messages` at the moment of the raise). -/
inductive StepRes where
  | stop (s : FetchState)
  | next (s : FetchState)
  | raise (s : FetchState)
deriving Repr

/-- One iteration of the pagination loop, translated line by line:
request the current page; break on non-200; parse the body (a parse
failure raises); default `items` to `[]` (a non-dict body raises at
`.get`); break on a falsy `items`; remember `total` on the first response
carrying it; append the normalized items; bump `total_fetched`; break when
a remembered total is reached; otherwise advance to the next page.
A truthy non-list `items` raises while iterating it. -/
def fetchStep (remote : Nat → Nat → FetchResp) (s0 : FetchState) : StepRes :=
  let s := { s0 with reqs := s0.reqs ++ [s0.page] }
  match remote s0.page pageLimit with
  | .netError => .raise s
  | .resp status body =>
    if status ≠ 200 then .stop s
    else
      match body with
      | .error _ => .raise s
      | .ok data =>
        match pyGet data "items" (.jarr []) with
        | .error _ => .raise s
        | .ok items =>
          if !pyTruthy items then .stop s
          else
            let api_total' := rememberTotal s.api_total data
            match items with
            | .jarr its =>
              let (newMsgs, err) := normalizeMany its
              match err with
              | some _ =>
                .raise { s with api_total := api_total', msgs := s.msgs ++ newMsgs }
              | none =>
                let tf := s.total_fetched + its.length
                let s' : FetchState :=
                  { page := s.page, total_fetched := tf, api_total := api_total',
                    msgs := s.msgs ++ newMsgs, reqs := s.reqs }
                match api_total' with
                | some t =>
                  match pyGEInt tf t with
                  | .error _ => .raise s'
                  | .ok true => .stop s'
                  | .ok false => .next { s' with page := s.page + 1 }
                | none => .next { s' with page := s.page + 1 }
            | _ => .raise { s with api_total := api_total' }

/-- How the pagination loop exits: a `break` (`finished`), an exception
(`raised`), or the fuel bound of the model was reached (`fuelOut`; the
Python loop itself has no such bound). -/
inductive LoopRes where
  | finished (s : FetchState)
  | raised (s : FetchState)
  | fuelOut (s : FetchState)
deriving Repr

/-- The `while True` pagination loop as iterated `fetchStep`. -/
def fetchLoop (remote : Nat → Nat → FetchResp) : Nat → FetchState → LoopRes
  | 0, s => .fuelOut s
  | fuel + 1, s =>
    match fetchStep remote s with
    | .stop s' => .finished s'
    | .raise s' => .raised s'
    | .next s' => fetchLoop remote fuel s'

/-- Result of startup: the server comes up with some corpus, or (only in
the model) the fuel bound was hit before the loop exited. -/
inductive StartupRes where
  | upWith (corpus : JVal)
  | diverged
deriving Repr

/-- `lifespan`: try the cache; on a miss run the pagination loop; a normal
exit keeps the fetched messages (and saves them), an exception resets
`messages` to the empty list. Returns the corpus the server starts with
and the cache file state afterwards. -/
def lifespan (cache : CacheFile) (remote : Nat → Nat → FetchResp) (fuel : Nat) :
    StartupRes × CacheFile :=
  let (hit, loaded) := load_messages_from_cache cache (.jarr [])
  if hit then (.upWith loaded, cache)
  else
    match fetchLoop remote fuel fetchInit with
    | .finished s => (.upWith (.jarr s.msgs), save_messages_cache (.jarr s.msgs) cache)
    | .raised _ => (.upWith (.jarr []), cache)
    | .fuelOut _ => (.diverged, cache)

/-! ## Request handlers (`root`, `health`, `ask`) -/

/-- The `GET /` handler: returns a redirect to `/docs`; reads nothing.
Result: (new corpus, redirect target). -/
def rootHandler (messages : JVal) : JVal × String :=
  (messages, "/docs")

/-- The `GET /health` handler: reports status, `len(messages)` and whether
the key is set. Result: (new corpus, response or raised exception). -/
def healthHandler (apiKey : String) (messages : JVal) :
    JVal × Except PyErr JVal :=
  (messages,
    match pyLen messages with
    | .error e => .error e
    | .ok n =>
      .ok (.jobj [("status", .jstr "ok"),
                  ("messages_cached", .jnum (n : Int)),
                  ("api_key_set", .jbool (pyTruthy (.jstr apiKey)))]))

/-- The response of the `POST /ask` handler: a JSON body `{"answer": v}`,
or an `HTTPException` re-raised / produced by its `except` arms. -/
inductive AskHttpRes where
  | ok (body : JVal)
  | httpError (status : Nat)
deriving Repr

/-- The `POST /ask` handler: calls `ask_gemini`; an `HTTPException` is
re-raised as-is and any other exception becomes a 500.
Result: (new corpus, HTTP response). -/
def askHandler (apiKey : String) (messages : JVal) (env : Nat → AttemptOutcome) :
    JVal × AskHttpRes :=
  (messages,
    match (ask_gemini apiKey messages env).res with
    | .ret v => .ok (.jobj [("answer", v)])
    | .raised status => .httpError status
    | .pyerr _ => .httpError 500)

/-- One request made against the server after startup. -/
inductive Req where
  | root
  | health
  | ask (env : Nat → AttemptOutcome)

/-- Corpus after serving one request (the first component of each handler). -/
def serve (apiKey : String) (messages : JVal) : Req → JVal
  | .root => (rootHandler messages).1
  | .health => (healthHandler apiKey messages).1
  | .ask env => (askHandler apiKey messages env).1

/-- Corpus after serving a sequence of requests. -/
def serveAll (apiKey : String) (messages : JVal) : List Req → JVal
  | [] => messages
  | r :: rs => serveAll apiKey (serve apiKey messages r) rs

/-! ## Concrete scenarios used to instantiate the theorems below -/

/-- A normalized message as produced by the fetcher for user `A`, text `m`. -/
def msgAm : JVal := .jobj [("member", .jstr "A"), ("message", .jstr "m")]

/-- A raw remote item for user `A`, text `m`. -/
def itemAm : JVal := .jobj [("user_name", .jstr "A"), ("message", .jstr "m")]

/-- Body of a page that returns five items and reports `total = 5`. -/
def t5body : JVal :=
  .jobj [("items", .jarr (List.replicate 5 itemAm)), ("total", .jnum 5)]

/-- A remote endpoint whose page 0 already satisfies its reported total:
five items together with `total = 5`. -/
def remoteT5 : Nat → Nat → FetchResp := fun p _limit =>
  if p = 0 then .resp 200 (.ok t5body)
  else .resp 200 (.ok (.jobj [("items", .jarr [])]))

/-- A remote endpoint that serves one item on page 0 and then raises a
transport exception on page 1, mid-pagination. -/
def remoteRaise : Nat → Nat → FetchResp := fun p _limit =>
  if p = 0 then .resp 200 (.ok (.jobj [("items", .jarr [itemAm])]))
  else .netError

/-! ## Helper lemmas -/

/-- `build_context` on a well-shaped corpus renders `member: message`
lines joined by newlines. -/
theorem build_context_corpusOf (l : List (String × String)) :
    build_context (corpusOf l) =
      .ok (String.intercalate "\n" (l.map fun p => p.1 ++ ": " ++ p.2)) := by
  suffices h : contextLines (l.map fun p =>
      JVal.jobj [("member", .jstr p.1), ("message", .jstr p.2)]) =
      .ok (l.map fun p => p.1 ++ ": " ++ p.2) by
    simp [build_context, corpusOf, h, Bind.bind, Except.bind]
  induction l with
  | nil => rfl
  | cons p l ih =>
    simp [contextLines, contextLine, pySubscript, jLookup, pyStr, ih,
      Bind.bind, Except.bind]

/-- A corpus holding at least one message is truthy. -/
theorem pyTruthy_corpusOf_cons (p : String × String) (l : List (String × String)) :
    pyTruthy (corpusOf (p :: l)) = true := by
  simp [corpusOf, pyTruthy]

/-- An attempt that does not fail returns the extracted text immediately. -/
theorem askLoopAux_ok (env : Nat → AttemptOutcome) (rem a : Nat)
    (sleeps : List Nat) (calls : Nat) (h : attemptFails env a = false) :
    ∃ text, askLoopAux env (rem + 1) a sleeps calls = ⟨.returned text, sleeps, calls + 1⟩ := by
  rcases henv : env a with body | _ | _ <;> simp [attemptFails, henv] at h
  rcases hx : extractText body with e | text <;> simp [hx] at h
  exact ⟨text, by simp [askLoopAux, henv, hx]⟩

/-- A failing attempt before the last one sleeps `2 ** attempt` seconds and
moves on to the next attempt. -/
theorem askLoopAux_fail_step (env : Nat → AttemptOutcome) (rem a : Nat)
    (sleeps : List Nat) (calls : Nat) (ha : a ≠ 2) (h : attemptFails env a = true) :
    askLoopAux env (rem + 1) a sleeps calls =
      askLoopAux env rem (a + 1) (sleeps ++ [2 ^ a]) (calls + 1) := by
  have ha' : (a == 2) = false := by simpa using ha
  rcases henv : env a with body | _ | _
  · simp only [attemptFails, henv] at h
    rcases hx : extractText body with e | text <;> simp [hx] at h
    simp [askLoopAux, henv, hx, ha']
  · simp [askLoopAux, henv, ha']
  · simp [askLoopAux, henv, ha']

/-- A failing third attempt raises: 502 after `httpx.HTTPStatusError`,
500 otherwise. -/
theorem askLoopAux_fail_last (env : Nat → AttemptOutcome) (rem : Nat)
    (sleeps : List Nat) (calls : Nat) (h : attemptFails env 2 = true) :
    askLoopAux env (rem + 1) 2 sleeps calls =
      ⟨.raised (match env 2 with | .statusError => 502 | _ => 500),
       sleeps, calls + 1⟩ := by
  rcases henv : env 2 with body | _ | _
  · simp only [attemptFails, henv] at h
    rcases hx : extractText body with e | text <;> simp [hx] at h
    simp [askLoopAux, henv, hx]
  · simp [askLoopAux, henv]
  · simp [askLoopAux, henv]

/-! ## Claim theorems -/

/-- C7: `build_context` renders every message of the corpus as
`member: message`, joined by newlines, in corpus order, with no
truncation, filtering or deduplication; on `[{A,"hi"},{B,"yo"}]` it yields
exactly `"A: hi\nB: yo"`, and on the empty corpus the empty string. -/
theorem C7_build_context_renders_in_order (l : List (String × String)) :
    build_context (corpusOf l) =
      .ok (String.intercalate "\n" (l.map fun p => p.1 ++ ": " ++ p.2)) ∧
    build_context (corpusOf [("A", "hi"), ("B", "yo")]) = .ok ("A: hi" ++ "\n" ++ "B: yo") ∧
    build_context (.jarr []) = .ok "" := by
  refine ⟨build_context_corpusOf l, ?_, rfl⟩
  have h := build_context_corpusOf [("A", "hi"), ("B", "yo")]
  simpa [String.intercalate] using h

/-- C6: `load_messages_from_cache` returns true exactly when it read and
parsed the cache file (and then the corpus is the parsed value); a missing
file or a read/parse failure yields false with the corpus untouched, and
no error propagates (the model is a total function). -/
theorem C6_load_cache_contract (file : CacheFile) (m : JVal) :
    ((load_messages_from_cache file m).1 = true ↔ ∃ v, file = .holds (.ok v)) ∧
    ((load_messages_from_cache file m).1 = false → (load_messages_from_cache file m).2 = m) ∧
    (∀ v, file = .holds (.ok v) → load_messages_from_cache file m = (true, v)) := by
  rcases file with _ | _ | pr
  · refine ⟨?_, ?_, ?_⟩ <;> simp [load_messages_from_cache]
  · refine ⟨?_, ?_, ?_⟩ <;> simp [load_messages_from_cache]
  · rcases pr with e | v
    · refine ⟨?_, ?_, ?_⟩ <;> simp [load_messages_from_cache]
    · refine ⟨?_, ?_, ?_⟩ <;> simp [load_messages_from_cache]

/-- C6 witness: concrete cache states evaluated through the theorem. -/
theorem C6_load_cache_contract_witness :
    ((load_messages_from_cache .missing (.jarr [])).1 = true ↔
      ∃ v, CacheFile.missing = .holds (.ok v)) ∧
    ((load_messages_from_cache .missing (.jarr [])).1 = false →
      (load_messages_from_cache .missing (.jarr [])).2 = .jarr []) :=
  ⟨(C6_load_cache_contract .missing (.jarr [])).1,
   (C6_load_cache_contract .missing (.jarr [])).2.1⟩

/-- C5 counterexample: with an empty corpus, `save_messages_cache` does
not overwrite the cache file — the guard `if messages:` skips the write,
so a file previously holding other content keeps it. -/
theorem C5_counterexample_empty_corpus_not_saved :
    save_messages_cache (.jarr []) (.holds (.ok (.jstr "old"))) =
      .holds (.ok (.jstr "old")) ∧
    CacheFile.holds (.ok (.jstr "old")) ≠ .holds (.ok (.jarr [])) := by
  refine ⟨rfl, ?_⟩
  intro h
  injection h with h1
  injection h1 with h2
  cases h2

/-- C5 (amended): for every non-empty (truthy) corpus the save operation
writes the serialized full corpus to the cache file, overwriting whatever
it previously held; for an empty corpus it writes nothing and the file
keeps its previous state. -/
theorem C5_amended_save_overwrites_when_nonempty (messages : JVal) (file : CacheFile)
    (h : pyTruthy messages = true) :
    save_messages_cache messages file = .holds (.ok messages) ∧
    (∀ f, save_messages_cache (.jarr []) f = f) := by
  constructor
  · simp [save_messages_cache, h]
  · intro f; simp [save_messages_cache, pyTruthy]

/-- C5 witness: a one-message corpus is truthy and is saved over a missing
file. -/
theorem C5_amended_save_overwrites_when_nonempty_witness :
    pyTruthy (.jarr [msgAm]) = true ∧
    (save_messages_cache (.jarr [msgAm]) .missing = .holds (.ok (.jarr [msgAm])) ∧
      ∀ f, save_messages_cache (.jarr []) f = f) :=
  ⟨rfl, C5_amended_save_overwrites_when_nonempty (.jarr [msgAm]) .missing rfl⟩

/-- C4 counterexample: the response `{"candidates": []}` has the text path
structurally absent, yet the extraction does not return the no-text
marker — it raises `IndexError` (`[][0]`). -/
theorem C4_counterexample_empty_candidates_raises :
    extractText (.jobj [("candidates", .jarr [])]) = .error .indexError ∧
    extractText (.jobj [("candidates", .jarr [])]) ≠ .ok (.jstr noTextMarker) := by
  refine ⟨rfl, ?_⟩
  intro h
  rw [show extractText (.jobj [("candidates", .jarr [])]) = .error .indexError from rfl] at h
  cases h

/-- C4 (amended): on a 2xx response the extraction takes the first
candidate's first part's text; when the absence is a missing dict key
along the path (`candidates`, `content`, `parts` or `text` not present),
the chained `.get` defaults produce the fixed no-text marker without any
exception; but when a list along the path is present and empty
(`candidates: []` or `parts: []`) the extraction raises `IndexError`
instead — the retry loop catches it as a failed attempt, ending in a 500
after the retries, not in a marker return. -/
theorem C4_amended_extraction (fields : List (String × JVal))
    (hnone : jLookup fields "candidates" = none) :
    extractText (.jobj fields) = .ok (.jstr noTextMarker) ∧
    extractText (.jobj [("candidates", .jarr [.jobj []])]) = .ok (.jstr noTextMarker) ∧
    extractText (.jobj [("candidates", .jarr [.jobj [("content", .jobj [])]])]) =
      .ok (.jstr noTextMarker) ∧
    extractText (.jobj [("candidates",
      .jarr [.jobj [("content", .jobj [("parts", .jarr [.jobj []])])]])]) =
      .ok (.jstr noTextMarker) ∧
    extractText (.jobj [("candidates", .jarr [])]) = .error .indexError ∧
    extractText (.jobj [("candidates",
      .jarr [.jobj [("content", .jobj [("parts", .jarr [])])]])]) = .error .indexError ∧
    (ask_gemini "k" (corpusOf [("A", "hi")])
      (fun _ => .success (.jobj [("candidates", .jarr [])]))).res = .raised 500 := by
  refine ⟨?_, rfl, rfl, rfl, rfl, rfl, rfl⟩
  simp [extractText, pyGet, hnone, pyIndex0, Bind.bind, Except.bind, jLookup]

/-- C4 witness: a response object without a `candidates` key defaults to
the marker. -/
theorem C4_amended_extraction_witness :
    jLookup [] "candidates" = none ∧
    extractText (.jobj []) = .ok (.jstr noTextMarker) :=
  ⟨rfl, (C4_amended_extraction [] rfl).1⟩

/-- C8: with an unset (empty) credential `ask_gemini` immediately returns
the fixed key diagnostic with zero outbound calls; with a set credential
and an empty corpus it immediately returns the fixed data diagnostic with
zero outbound calls; the credential check runs first (an unset credential
wins even on an empty corpus). Neither case raises. -/
theorem C8_preconditions_short_circuit :
    (∀ (messages : JVal) (env : Nat → AttemptOutcome),
      ask_gemini "" messages env = ⟨.ret (.jstr keyMissingMsg), [], 0⟩) ∧
    (∀ (apiKey : String) (env : Nat → AttemptOutcome), apiKey ≠ "" →
      ask_gemini apiKey (.jarr []) env = ⟨.ret (.jstr noDataMsg), [], 0⟩) ∧
    (∀ env : Nat → AttemptOutcome,
      ask_gemini "" (.jarr []) env = ⟨.ret (.jstr keyMissingMsg), [], 0⟩) := by
  refine ⟨?_, ?_, ?_⟩
  · intro messages env
    simp [ask_gemini, pyTruthy]
  · intro apiKey env hk
    simp [ask_gemini, pyTruthy, hk]
  · intro env
    simp [ask_gemini, pyTruthy]

/-- C8 witness: a set key with an empty corpus yields the data diagnostic. -/
theorem C8_preconditions_short_circuit_witness :
    ("k" : String) ≠ "" ∧
    ask_gemini "k" (.jarr []) (fun _ => .statusError) = ⟨.ret (.jstr noDataMsg), [], 0⟩ :=
  ⟨by decide, C8_preconditions_short_circuit.2.1 "k" (fun _ => .statusError) (by decide)⟩

/-- C1: with a configured credential and a non-empty corpus, `ask_gemini`
makes at most 3 attempts; a failure of attempt 1 sleeps 1 second before
attempt 2 and a failure of attempt 2 sleeps 2 seconds before attempt 3;
when all three attempts fail it raises an `HTTPException` to the caller
(502 when the third failure is an upstream error-status response, 500 for
any other failure) instead of returning a value. -/
theorem C1_retry_policy (apiKey : String) (p : String × String)
    (l : List (String × String)) (env : Nat → AttemptOutcome) (hk : apiKey ≠ "") :
    (ask_gemini apiKey (corpusOf (p :: l)) env).calls ≤ 3 ∧
    (attemptFails env 0 = false →
      (ask_gemini apiKey (corpusOf (p :: l)) env).sleeps = [] ∧
      (ask_gemini apiKey (corpusOf (p :: l)) env).calls = 1 ∧
      ∃ t, (ask_gemini apiKey (corpusOf (p :: l)) env).res = .ret t) ∧
    (attemptFails env 0 = true → attemptFails env 1 = false →
      (ask_gemini apiKey (corpusOf (p :: l)) env).sleeps = [1] ∧
      (ask_gemini apiKey (corpusOf (p :: l)) env).calls = 2 ∧
      ∃ t, (ask_gemini apiKey (corpusOf (p :: l)) env).res = .ret t) ∧
    (attemptFails env 0 = true → attemptFails env 1 = true → attemptFails env 2 = false →
      (ask_gemini apiKey (corpusOf (p :: l)) env).sleeps = [1, 2] ∧
      (ask_gemini apiKey (corpusOf (p :: l)) env).calls = 3 ∧
      ∃ t, (ask_gemini apiKey (corpusOf (p :: l)) env).res = .ret t) ∧
    (attemptFails env 0 = true → attemptFails env 1 = true → attemptFails env 2 = true →
      (ask_gemini apiKey (corpusOf (p :: l)) env).sleeps = [1, 2] ∧
      (ask_gemini apiKey (corpusOf (p :: l)) env).calls = 3 ∧
      (ask_gemini apiKey (corpusOf (p :: l)) env).res =
        .raised (match env 2 with | .statusError => 502 | _ => 500)) := by
  have hkey : pyTruthy (.jstr apiKey) = true := by simp [pyTruthy, hk]
  have hgo : ∀ out : LoopOut, askLoop env = out →
      ask_gemini apiKey (corpusOf (p :: l)) env =
        (match out.exit with
         | .returned t => ⟨.ret t, out.sleeps, out.calls⟩
         | .raised code => ⟨.raised code, out.sleeps, out.calls⟩
         | .fellThrough => ⟨.ret (.jstr fallbackMsg), out.sleeps, out.calls⟩) := by
    intro out hout
    simp [ask_gemini, hkey, pyTruthy_corpusOf_cons, build_context_corpusOf, hout]
  cases hf0 : attemptFails env 0 with
  | false =>
    obtain ⟨t, hL⟩ := askLoopAux_ok env 2 0 [] 0 hf0
    have hA := hgo ⟨.returned t, [], 1⟩ (by simpa [askLoop] using hL)
    refine ⟨by simp [hA], fun _ => ⟨by simp [hA], by simp [hA], t, by simp [hA]⟩,
      ?_, ?_, ?_⟩ <;> (intro h0; exact absurd h0 (by decide))
  | true =>
    have h1 : askLoop env = askLoopAux env 2 1 [1] 1 := by
      simpa [askLoop] using askLoopAux_fail_step env 2 0 [] 0 (by decide) hf0
    cases hf1 : attemptFails env 1 with
    | false =>
      obtain ⟨t, hL⟩ := askLoopAux_ok env 1 1 [1] 1 hf1
      have hA := hgo ⟨.returned t, [1], 2⟩ (by rw [h1]; simpa using hL)
      refine ⟨by simp [hA], ?_, fun _ _ => ⟨by simp [hA], by simp [hA], t, by simp [hA]⟩,
        ?_, ?_⟩
      · intro h0; exact absurd h0 (by decide)
      · intro _ h1'; exact absurd h1' (by decide)
      · intro _ h1'; exact absurd h1' (by decide)
    | true =>
      have h2 : askLoop env = askLoopAux env 1 2 [1, 2] 2 := by
        rw [h1]
        simpa using askLoopAux_fail_step env 1 1 [1] 1 (by decide) hf1
      cases hf2 : attemptFails env 2 with
      | false =>
        obtain ⟨t, hL⟩ := askLoopAux_ok env 0 2 [1, 2] 2 hf2
        have hA := hgo ⟨.returned t, [1, 2], 3⟩ (by rw [h2]; simpa using hL)
        refine ⟨by simp [hA], ?_, ?_,
          fun _ _ _ => ⟨by simp [hA], by simp [hA], t, by simp [hA]⟩, ?_⟩
        · intro h0; exact absurd h0 (by decide)
        · intro _ h1'; exact absurd h1' (by decide)
        · intro _ _ h2'; exact absurd h2' (by decide)
      | true =>
        have hA := hgo ⟨.raised (match env 2 with | .statusError => 502 | _ => 500),
            [1, 2], 3⟩ (by rw [h2]; simpa using askLoopAux_fail_last env 0 [1, 2] 2 hf2)
        refine ⟨?_, ?_, ?_, ?_,
          fun _ _ _ => ⟨by simp [hA], by simp [hA], ?_⟩⟩
        · cases henv : env 2 <;> simp [hA]
        · intro h0; exact absurd h0 (by decide)
        · intro _ h1'; exact absurd h1' (by decide)
        · intro _ _ h2'; exact absurd h2' (by decide)
        · simp [hA]

/-- C1 witness: a persistently error-status endpoint, with a set key and a
one-message corpus, ends with a raised 502 after sleeps of 1 and 2
seconds and exactly 3 calls. -/
theorem C1_retry_policy_witness :
    ("k" : String) ≠ "" ∧
    (ask_gemini "k" (corpusOf [("A", "hi")]) (fun _ => .statusError)).sleeps = [1, 2] ∧
    (ask_gemini "k" (corpusOf [("A", "hi")]) (fun _ => .statusError)).calls = 3 ∧
    (ask_gemini "k" (corpusOf [("A", "hi")]) (fun _ => .statusError)).res = .raised 502 := by
  have h := (C1_retry_policy "k" ("A", "hi") [] (fun _ => .statusError)
    (by decide)).2.2.2.2 rfl rfl rfl
  exact ⟨by decide, h.1, h.2.1, h.2.2⟩

/-- C2: the fetch loop starts at page 0 with page size 100 and, on a
received and parsed page, stops exactly when: the status is not 200
(keeping everything fetched so far), or the items list is empty, or a
remembered total is known and the cumulative count reaches it; otherwise
it appends the page's normalized items, increments the page and
continues. In particular, a first page already satisfying its own
reported total ends fetching after page 0: page 1 is never requested. -/
theorem C2_pagination_stop_conditions (remote : Nat → Nat → FetchResp)
    (s : FetchState) (status : Nat) (data items : JVal)
    (hresp : remote s.page pageLimit = .resp status (.ok data))
    (hitems : pyGet data "items" (.jarr []) = .ok items) :
    fetchInit.page = 0 ∧ pageLimit = 100 ∧
    (status ≠ 200 → fetchStep remote s = .stop { s with reqs := s.reqs ++ [s.page] }) ∧
    (status = 200 → items = .jarr [] →
      fetchStep remote s = .stop { s with reqs := s.reqs ++ [s.page] }) ∧
    (∀ its ms t, status = 200 → items = .jarr its → its ≠ [] →
      normalizeMany its = (ms, none) →
      rememberTotal s.api_total data = some t →
      pyGEInt (s.total_fetched + its.length) t = .ok true →
      fetchStep remote s = .stop ⟨s.page, s.total_fetched + its.length, some t,
        s.msgs ++ ms, s.reqs ++ [s.page]⟩) ∧
    (∀ its ms, status = 200 → items = .jarr its → its ≠ [] →
      normalizeMany its = (ms, none) →
      (rememberTotal s.api_total data = none ∨
        ∃ t, rememberTotal s.api_total data = some t ∧
          pyGEInt (s.total_fetched + its.length) t = .ok false) →
      fetchStep remote s = .next ⟨s.page + 1, s.total_fetched + its.length,
        rememberTotal s.api_total data, s.msgs ++ ms, s.reqs ++ [s.page]⟩) ∧
    fetchLoop remoteT5 10 fetchInit =
      .finished ⟨0, 5, some (.jnum 5), List.replicate 5 msgAm, [0]⟩ := by
  refine ⟨rfl, rfl, ?_, ?_, ?_, ?_, rfl⟩
  · intro hs
    simp [fetchStep, hresp, hs]
  · intro hs hempty
    subst hs hempty
    simp [fetchStep, hresp, hitems, pyTruthy]
  · intro its ms t hs hits hne hnorm htot hge
    subst hs hits
    obtain ⟨i, its', rfl⟩ := List.exists_cons_of_ne_nil hne
    simp only [List.length_cons] at hge
    simp [fetchStep, hresp, hitems, pyTruthy, hnorm, htot, hge]
  · intro its ms hs hits hne hnorm hcase
    subst hs hits
    obtain ⟨i, its', rfl⟩ := List.exists_cons_of_ne_nil hne
    rcases hcase with htot | ⟨t, htot, hge⟩
    · simp [fetchStep, hresp, hitems, pyTruthy, hnorm, htot]
    · simp only [List.length_cons] at hge
      simp [fetchStep, hresp, hitems, pyTruthy, hnorm, htot, hge]

/-- C2 witness: the remote whose page 0 reports `total = 5` and serves 5
items, fed through the theorem: the loop finishes after requesting only
page 0, with 5 normalized messages. -/
theorem C2_pagination_stop_conditions_witness :
    remoteT5 fetchInit.page pageLimit = .resp 200 (.ok t5body) ∧
    pyGet t5body "items" (.jarr []) = .ok (.jarr (List.replicate 5 itemAm)) ∧
    fetchLoop remoteT5 10 fetchInit =
      .finished ⟨0, 5, some (.jnum 5), List.replicate 5 msgAm, [0]⟩ :=
  ⟨rfl, rfl,
    (C2_pagination_stop_conditions remoteT5 fetchInit 200 t5body
      (.jarr (List.replicate 5 itemAm)) rfl rfl).2.2.2.2.2.2⟩

/-- C3: when the cache misses and the pagination loop ends in an
exception — even one raised after messages were already appended — the
corpus the server starts with is empty, never a strict part of the remote
data. -/
theorem C3_fetch_fail_closed (cache : CacheFile) (remote : Nat → Nat → FetchResp)
    (fuel : Nat) (s : FetchState)
    (hmiss : (load_messages_from_cache cache (.jarr [])).1 = false)
    (hloop : fetchLoop remote fuel fetchInit = .raised s)
    (_hsome : s.msgs ≠ []) :
    (lifespan cache remote fuel).1 = .upWith (.jarr []) := by
  rcases hLv : load_messages_from_cache cache (.jarr []) with ⟨b, v⟩
  have hb : b = false := by rw [hLv] at hmiss; simpa using hmiss
  subst hb
  simp [lifespan, hLv, hloop]

/-- C3 witness: a remote that serves one item on page 0 and raises on
page 1 leaves a raised state with one appended message, and `lifespan`
nevertheless comes up with an empty corpus. -/
theorem C3_fetch_fail_closed_witness :
    (load_messages_from_cache .missing (.jarr [])).1 = false ∧
    fetchLoop remoteRaise 10 fetchInit = .raised ⟨1, 1, none, [msgAm], [0, 1]⟩ ∧
    ([msgAm] : List JVal) ≠ [] ∧
    (lifespan .missing remoteRaise 10).1 = .upWith (.jarr []) := by
  refine ⟨rfl, rfl, by simp, ?_⟩
  exact C3_fetch_fail_closed .missing remoteRaise 10 ⟨1, 1, none, [msgAm], [0, 1]⟩
    rfl rfl (by simp)

/-- C9: no request handler mutates the corpus: `root`, `health` and `ask`
each return the corpus unchanged, and any sequence of such requests leaves
the corpus identical to what startup produced. -/
theorem C9_handlers_preserve_corpus (apiKey : String) (m : JVal)
    (env : Nat → AttemptOutcome) :
    (rootHandler m).1 = m ∧
    (healthHandler apiKey m).1 = m ∧
    (askHandler apiKey m env).1 = m ∧
    ∀ rs : List Req, serveAll apiKey m rs = m := by
  refine ⟨rfl, rfl, rfl, ?_⟩
  intro rs
  induction rs generalizing m with
  | nil => rfl
  | cons r rs ih =>
    cases r <;> simp [serveAll, serve, rootHandler, healthHandler, askHandler, ih]

/-- C10: the retry loop never falls through: it exits with a value
returned from inside one of the three attempts, or by raising 502/500 on
the third attempt (after exactly three calls); the post-loop line
returning the fixed fallback string is unreachable. -/
theorem C10_fallback_unreachable (env : Nat → AttemptOutcome) :
    (askLoop env).exit ≠ .fellThrough ∧
    ((∃ t, (askLoop env).exit = .returned t) ∨
      ((askLoop env).calls = 3 ∧
        ((askLoop env).exit = .raised 502 ∨ (askLoop env).exit = .raised 500))) := by
  cases hf0 : attemptFails env 0 with
  | false =>
    obtain ⟨t, hL⟩ := askLoopAux_ok env 2 0 [] 0 hf0
    rw [show askLoop env = askLoopAux env 3 0 [] 0 from rfl, hL]
    exact ⟨by simp, Or.inl ⟨t, rfl⟩⟩
  | true =>
    have h1 : askLoop env = askLoopAux env 2 1 [1] 1 := by
      have h := askLoopAux_fail_step env 2 0 [] 0 (by decide) hf0
      simpa [askLoop] using h
    cases hf1 : attemptFails env 1 with
    | false =>
      obtain ⟨t, hL⟩ := askLoopAux_ok env 1 1 [1] 1 hf1
      rw [h1, hL]
      exact ⟨by simp, Or.inl ⟨t, rfl⟩⟩
    | true =>
      have h2 : askLoop env = askLoopAux env 1 2 [1, 2] 2 := by
        rw [h1]
        simpa using askLoopAux_fail_step env 1 1 [1] 1 (by decide) hf1
      cases hf2 : attemptFails env 2 with
      | false =>
        obtain ⟨t, hL⟩ := askLoopAux_ok env 0 2 [1, 2] 2 hf2
        rw [h2, hL]
        exact ⟨by simp, Or.inl ⟨t, rfl⟩⟩
      | true =>
        have h3 := askLoopAux_fail_last env 0 [1, 2] 2 hf2
        rw [h2, h3]
        refine ⟨?_, Or.inr ⟨rfl, ?_⟩⟩
        · cases henv : env 2 <;> simp
        · cases henv : env 2 <;> simp

/-- C10 witness: a permanently failing endpoint exits by raising, not by
the fallback line. -/
theorem C10_fallback_unreachable_witness :
    (askLoop fun _ => .statusError).exit ≠ .fellThrough ∧
    ((∃ t, (askLoop fun _ => .statusError).exit = .returned t) ∨
      ((askLoop fun _ => .statusError).calls = 3 ∧
        ((askLoop fun _ => .statusError).exit = .raised 502 ∨
          (askLoop fun _ => .statusError).exit = .raised 500))) :=
  C10_fallback_unreachable (fun _ => .statusError)

end Aurora
